import Mathlib

/-!
Shallow embedding of the zip-rs ZIP archive reader (`src/lib.rs`,
`src/parse.rs`, `src/common.rs`, `src/error.rs`).

Buffers are `List Nat`, one element per byte of the Rust `&[u8]` buffer;
multi-byte integers are assembled exactly as `u16::from_le_bytes` /
`u32::from_le_bytes` assemble them (little-endian).  Fallible Rust functions
returning `Result<T, ZipParseError>` become `Except ZipParseError`; the
parser's mutable cursor (`self.cursor`) is threaded explicitly: every reading
operation takes the cursor and returns its result paired with the new cursor.
Zero-copy `&'a [u8]` slices of the buffer become plain `List Nat` values
(the `(offset, length)` content is what matters for the functional claims;
borrowing and the `unsafe` lifetime extension are memory-layout concerns with
no functional content).

The DEFLATE decompressor (`flate2::read::DeflateDecoder`) is an external
collaborator of the crate; it is modelled abstractly as a parameter
`inflate : List Nat → Option (List Nat)` where `Option.some s` means the
decoder yields exactly the byte stream `s` and `Option.none` means it fails.
The `todo!()` macro, which aborts the process, is modelled by a dedicated
`ZipOutcome.panicked` result so that panics stay distinguishable from the
typed `ZipParseError` failures.
-/

/-- Error type from `src/error.rs` (`ZipParseError`).  `IoError` drops the
wrapped `std::io::Error` payload; `MalformedSignature` keeps both 4-byte
arrays as lists. -/
inductive ZipParseError
  | FileTooLarge (size : Nat)
  | IoError
  | MalformedSignature (found expected : List Nat)
  | Generic (msg : String)
  | UnexpectedEof
  | MissingCentralDirectory
  deriving DecidableEq

/-- `common.rs` line 1. -/
def LOCAL_FILE_SIGNATURE : List Nat := [0x50, 0x4b, 0x03, 0x04]

/-- `common.rs` line 2. -/
def CENTRAL_DIRECTORY_FILE_SIGNATURE : List Nat := [0x50, 0x4b, 0x01, 0x02]

/-- `common.rs` line 4. -/
def END_CENTRAL_DIRECTORY_SIGNATURE : List Nat := [0x50, 0x4b, 0x05, 0x06]

/-- `Metadata` from `src/lib.rs`.  The newtype wrappers `CompressionMethod`,
`DateTimeModified` and `ZipFlags` hold a single integer each, so the fields
are plain `Nat` here. -/
structure Metadata where
  version_needed : Nat
  compression_method : Nat
  date_time_modified : Nat
  flags : Nat
  name : List Nat
  extra_field : List Nat
  compressed_size : Nat
  uncompressed_size : Nat
  crc : Nat
  deriving DecidableEq

/-- `CentralDirectoryFileHeader` from `src/lib.rs`. -/
structure CentralDirectoryFileHeader where
  os : Nat
  metadata : Metadata
  disk_num_start : Nat
  internal_attributes : Nat
  external_attributes : Nat
  zip_specification_version : Nat
  local_header_offset : Nat
  comment : List Nat
  deriving DecidableEq

/-- `EndCentralDirectory` from `src/lib.rs` (field spellings kept verbatim,
including the `entires` typos). -/
structure EndCentralDirectory where
  disk_num : Nat
  disk_central_dir_num : Nat
  disk_entires : Nat
  total_entires : Nat
  central_dir_size : Nat
  central_dir_offset : Nat
  deriving DecidableEq

/-- `CentralDirectory` from `src/lib.rs`; the Rust field `end` is a Lean
keyword, so it is called `end_` here. -/
structure CentralDirectory where
  files : List CentralDirectoryFileHeader
  end_ : EndCentralDirectory
  deriving DecidableEq

/-- `CompressedZipFile` from `src/lib.rs`: an entry's metadata paired with
the slice of its compressed bytes. -/
structure CompressedZipFile where
  metadata : Metadata
  contents : List Nat
  deriving DecidableEq

/-- `CompressionMethodName` from `src/common.rs`. -/
inductive CompressionMethodName
  | None
  | Shrink
  | Factor1
  | Factor2
  | Factor3
  | Factor4
  | Implode
  | Reserved
  | Deflate
  | EnhancedDeflate
  | PKWareDclImplode
  | Bzip2
  | Lzma
  | IbmTerse
  | IbmLZ77z
  | PPMd
  | Unknown
  deriving DecidableEq

/-- `CompressionMethodName::from_u16` from `src/common.rs`. -/
def CompressionMethodName.from_u16 (n : Nat) : CompressionMethodName :=
  match n with
  | 0 => .None
  | 1 => .Shrink
  | 2 => .Factor1
  | 3 => .Factor2
  | 4 => .Factor3
  | 5 => .Factor4
  | 6 => .Implode
  | 7 | 11 | 13 | 15 | 16 | 17 => .Reserved
  | 8 => .Deflate
  | 9 => .EnhancedDeflate
  | 10 => .PKWareDclImplode
  | 12 => .Bzip2
  | 14 => .Lzma
  | 18 => .IbmTerse
  | 19 => .IbmLZ77z
  | 98 => .PPMd
  | _ => .Unknown

/-- `ZipFlags::has_data_descriptor` from `src/common.rs`:
`(self.0 & Self::DATA_DESCRIPTOR) != 0` with `DATA_DESCRIPTOR = 1 << 3`. -/
def has_data_descriptor (flags : Nat) : Bool :=
  flags &&& 8 != 0

/-- `Parser::read_byte` (`parse.rs` lines 36-45):
`self.buffer.get(self.cursor)` then advance, else `UnexpectedEof`. -/
def read_byte (b : List Nat) (cursor : Nat) : Except ZipParseError (Nat × Nat) :=
  match b.get? cursor with
  | Option.some v => .ok (v, cursor + 1)
  | Option.none => .error .UnexpectedEof

/-- `Parser::read_u16` (`parse.rs` lines 47-52). -/
def read_u16 (b : List Nat) (c : Nat) : Except ZipParseError (Nat × Nat) := do
  let (b1, c) ← read_byte b c
  let (b2, c) ← read_byte b c
  .ok (b1 + 256 * b2, c)

/-- `Parser::read_u32` (`parse.rs` lines 54-61). -/
def read_u32 (b : List Nat) (c : Nat) : Except ZipParseError (Nat × Nat) := do
  let (b1, c) ← read_byte b c
  let (b2, c) ← read_byte b c
  let (b3, c) ← read_byte b c
  let (b4, c) ← read_byte b c
  .ok (b1 + 256 * b2 + 65536 * b3 + 16777216 * b4, c)

/-- `Parser::read_signature` (`parse.rs` lines 63-79): if fewer than four
bytes remain, `false` without moving the cursor; on a match the cursor skips
the four signature bytes (`skip_u32`), otherwise it is left untouched. -/
def read_signature (signature : List Nat) (b : List Nat) (c : Nat) : Bool × Nat :=
  if b.length ≤ c + 3 then
    (false, c)
  else
    let found := [b.getD c 0, b.getD (c + 1) 0, b.getD (c + 2) 0, b.getD (c + 3) 0]
    if found = signature then (true, c + 4) else (false, c)

/-- `Parser::expect_signature` (`parse.rs` lines 81-99): with fewer than four
bytes remaining it fails with the generic "expected 4 byte signature" error;
with four bytes present but different from `expected` it fails with
`MalformedSignature` carrying both. -/
def expect_signature (expected : List Nat) (b : List Nat) (c : Nat) :
    Except ZipParseError (Unit × Nat) :=
  if b.length ≤ c + 3 then
    .error (.Generic ("expected 4 byte signature"))
  else
    let found := [b.getD c 0, b.getD (c + 1) 0, b.getD (c + 2) 0, b.getD (c + 3) 0]
    if found = expected then .ok ((), c + 4)
    else .error (.MalformedSignature found expected)

/-- `Parser::get_byte_range` (`parse.rs` lines 101-109):
`buffer.get(start..start+len)` is `Some` exactly when `start + len ≤ len(buffer)`. -/
def get_byte_range (b : List Nat) (c : Nat) (len : Nat) :
    Except ZipParseError (List Nat × Nat) :=
  if c + len ≤ b.length then .ok ((b.drop c).take len, c + len)
  else .error .UnexpectedEof

/-- `Parser::read_metadata` (`parse.rs` lines 115-152).  When flag bit 3 is
set, the data descriptor is read at the current cursor, i.e. directly after
the extra field.  The Rust code tests
`optional_signature.to_be_bytes() == DATA_DESCRIPTOR_SIGNATURE` with
`DATA_DESCRIPTOR_SIGNATURE = [0x08, 0x07, 0x4b, 0x50]` (`common.rs` line 3);
for a `u32` that equality holds exactly when the value is `0x08074b50`,
i.e. when the four buffer bytes were `50 4b 07 08`. -/
def read_metadata (b : List Nat) (c : Nat) : Except ZipParseError (Metadata × Nat) := do
  let (version_needed, c) ← read_u16 b c
  let (flags, c) ← read_u16 b c
  let (compression_method, c) ← read_u16 b c
  let (last_mod_date_time, c) ← read_u32 b c
  let (crc0, c) ← read_u32 b c
  let (compressed_size0, c) ← read_u32 b c
  let (uncompressed_size0, c) ← read_u32 b c
  let (file_name_len, c) ← read_u16 b c
  let (extra_field_len, c) ← read_u16 b c
  let (file_name, c) ← get_byte_range b c file_name_len
  let (extra_field, c) ← get_byte_range b c extra_field_len
  if has_data_descriptor flags then do
    let (optional_signature, c) ← read_u32 b c
    let (crc1, c) ←
      if optional_signature = 0x08074b50 then read_u32 b c
      else pure (optional_signature, c)
    let (compressed_size1, c) ← read_u32 b c
    let (uncompressed_size1, c) ← read_u32 b c
    .ok ({ version_needed := version_needed, compression_method := compression_method,
           date_time_modified := last_mod_date_time, flags := flags,
           name := file_name, extra_field := extra_field, crc := crc1,
           compressed_size := compressed_size1,
           uncompressed_size := uncompressed_size1 }, c)
  else
    .ok ({ version_needed := version_needed, compression_method := compression_method,
           date_time_modified := last_mod_date_time, flags := flags,
           name := file_name, extra_field := extra_field, crc := crc0,
           compressed_size := compressed_size0,
           uncompressed_size := uncompressed_size0 }, c)

/-- Loop body and recursion of `Parser::read_central_directory_file_headers`
(`parse.rs` lines 154-209): keep decoding entries while the central-directory
signature recurs, appending each to the accumulator.

The `fuel` argument only bounds the recursion depth for Lean's termination
checker.  Every iteration first consumes the 4 signature bytes (which
`read_signature` only does when at least 4 bytes remain beyond the cursor)
and then 42 bytes of fixed fields, so a successful iteration advances the
cursor by at least 46 while it stays within the buffer; hence at most
`b.length / 46 + 1` iterations can ever run and the wrapper's fuel of
`b.length + 1` is never exhausted — the fuel branch is unreachable. -/
def read_central_directory_file_headers_go (b : List Nat) (fuel : Nat) (c : Nat)
    (headers : List CentralDirectoryFileHeader) :
    Except ZipParseError (List CentralDirectoryFileHeader) :=
  match fuel with
  | 0 => .error (.Generic ("central directory loop fuel exhausted"))
  | Nat.succ fuel =>
    match read_signature CENTRAL_DIRECTORY_FILE_SIGNATURE b c with
    | (false, _) => .ok headers
    | (true, c) => do
      let (os, c) ← read_byte b c
      let (zip_specification_version, c) ← read_byte b c
      let (version_needed, c) ← read_u16 b c
      let (bit_flags, c) ← read_u16 b c
      let (compression_method, c) ← read_u16 b c
      let (date_time_modified, c) ← read_u32 b c
      let (crc, c) ← read_u32 b c
      let (compressed_size, c) ← read_u32 b c
      let (uncompressed_size, c) ← read_u32 b c
      let (file_name_len, c) ← read_u16 b c
      let (extra_field_len, c) ← read_u16 b c
      let (comment_len, c) ← read_u16 b c
      let (disk_num_start, c) ← read_u16 b c
      let (internal_attributes, c) ← read_u16 b c
      let (external_attributes, c) ← read_u32 b c
      let (local_header_offset, c) ← read_u32 b c
      let (file_name, c) ← get_byte_range b c file_name_len
      let (extra_field, c) ← get_byte_range b c extra_field_len
      let (comment, c) ← get_byte_range b c comment_len
      let metadata : Metadata :=
        { version_needed := version_needed, compression_method := compression_method,
          date_time_modified := date_time_modified, flags := bit_flags,
          name := file_name, extra_field := extra_field, crc := crc,
          compressed_size := compressed_size, uncompressed_size := uncompressed_size }
      read_central_directory_file_headers_go b fuel c
        (headers ++ [{ os := os, metadata := metadata,
                       disk_num_start := disk_num_start,
                       internal_attributes := internal_attributes,
                       external_attributes := external_attributes,
                       zip_specification_version := zip_specification_version,
                       local_header_offset := local_header_offset,
                       comment := comment }])

/-- `Parser::read_central_directory_file_headers` (`parse.rs` lines 154-209):
seek to `offset` and run the signature-terminated loop. -/
def read_central_directory_file_headers (b : List Nat) (offset : Nat) :
    Except ZipParseError (List CentralDirectoryFileHeader) :=
  read_central_directory_file_headers_go b (b.length + 1) offset []

/-- `Parser::read_end_central_directory` (`parse.rs` lines 211-238).  The
trailing comment is skipped by advancing the cursor `comment_len` bytes with
no bounds check (the cursor is returned but unused by the caller). -/
def read_end_central_directory (b : List Nat) (offset : Nat) :
    Except ZipParseError (EndCentralDirectory × Nat) := do
  let (_, c) ← expect_signature END_CENTRAL_DIRECTORY_SIGNATURE b offset
  let (disk_num, c) ← read_u16 b c
  let (disk_central_dir_num, c) ← read_u16 b c
  let (disk_entires, c) ← read_u16 b c
  let (total_entires, c) ← read_u16 b c
  let (central_dir_size, c) ← read_u32 b c
  let (central_dir_offset, c) ← read_u32 b c
  let (comment_len, c) ← read_u16 b c
  .ok ({ disk_num := disk_num, disk_central_dir_num := disk_central_dir_num,
         disk_entires := disk_entires, total_entires := total_entires,
         central_dir_size := central_dir_size,
         central_dir_offset := central_dir_offset }, c + comment_len)

/-- Start offsets at which `needle` occurs in `b`, in descending order.
This models `memmem::rfind_iter(&self.buffer, &needle)`: `memmem`'s reverse
iterator yields non-overlapping occurrences from the right, and the 4-byte
end-of-central-directory signature has no self-overlap (no proper prefix of
it is also a suffix), so for this needle the non-overlapping occurrences are
exactly all occurrences, in descending offset order. -/
def rfind_occurrences (b needle : List Nat) : List Nat :=
  ((List.range b.length).filter
    (fun i => decide ((b.drop i).take needle.length = needle))).reverse

/-- `Parser::parse_central_directory` (`parse.rs` lines 240-256).  The Rust
`for` loop's body ends in `return Ok(...)` and both fallible calls inside it
use `?`, which returns the error from the whole function rather than
continuing the loop; so only the first (highest-offset) candidate is ever
examined, and `MissingCentralDirectory` is produced exactly when the
signature occurs nowhere in the buffer. -/
def parse_central_directory (b : List Nat) : Except ZipParseError CentralDirectory :=
  match rfind_occurrences b END_CENTRAL_DIRECTORY_SIGNATURE with
  | [] => .error .MissingCentralDirectory
  | offset :: _ => do
    let (e, _) ← read_end_central_directory b offset
    let files ← read_central_directory_file_headers b e.central_dir_offset
    .ok { files := files, end_ := e }

/-- `ZipArchive::from_buffer` (`lib.rs` lines 63-72): run
`parse_central_directory` once; the archive value additionally retains the
buffer and the parser, which the embedding keeps implicit. -/
def from_buffer (b : List Nat) : Except ZipParseError CentralDirectory :=
  parse_central_directory b

/-- `Parser::read_file` (`parse.rs` lines 258-270): seek to the entry's
`local_header_offset`, require the local-file signature, decode the local
`Metadata` (including the data-descriptor correction), then slice out
`metadata.compressed_size` bytes — the size possibly taken from the
descriptor — starting at the cursor position after `read_metadata`. -/
def read_file (b : List Nat) (central_directory_header : CentralDirectoryFileHeader) :
    Except ZipParseError CompressedZipFile := do
  let c := central_directory_header.local_header_offset
  let (_, c) ← expect_signature LOCAL_FILE_SIGNATURE b c
  let (metadata, c) ← read_metadata b c
  let (contents, _) ← get_byte_range b c metadata.compressed_size
  .ok { metadata := metadata, contents := contents }

/-- Rust's derived `PartialOrd` for `Option<usize>`: `None` is below every
`Some`.  `option_le a b` is `a <= b`; the guard in `lib.rs` lines 145 and 186
is `Some(uncompressed_size) >= limit`, i.e. `option_le limit (some size)`. -/
def option_le (a b : Option Nat) : Bool :=
  match a, b with
  | Option.none, _ => true
  | Option.some _, Option.none => false
  | Option.some x, Option.some y => decide (x ≤ y)

/-- Result of running one of the decompression entry points: an ordinary
value, a typed `ZipParseError`, or an aborted process (Rust `todo!()`). -/
inductive ZipOutcome (α : Type)
  | ok (value : α)
  | err (e : ZipParseError)
  | panicked (msg : String)
  deriving DecidableEq

/-- `CompressedZipFile::write_with_limit` (`lib.rs` lines 140-166), returning
the bytes written to the sink `w` on success.  The sink itself is modelled as
an infallible accumulator.  In the `Deflate` arm, `std::io::copy` streams the
decoder into `w` and yields the byte count, and a count different from the
declared `uncompressed_size` is the generic "failed to write full buffer"
error; the `None` (stored) arm writes the raw contents with no such check;
every other method name hits `todo!("unimplemented compression method ...")`,
which panics. -/
def write_with_limit (inflate : List Nat → Option (List Nat)) (f : CompressedZipFile)
    (limit : Option Nat) : ZipOutcome (List Nat) :=
  if option_le limit (Option.some f.metadata.uncompressed_size) then
    .err (.FileTooLarge f.metadata.uncompressed_size)
  else
    match CompressionMethodName.from_u16 f.metadata.compression_method with
    | .None => .ok f.contents
    | .Deflate =>
      match inflate f.contents with
      | Option.none => .err .IoError
      | Option.some out =>
        if out.length ≠ f.metadata.uncompressed_size then
          .err (.Generic ("failed to write full buffer"))
        else .ok out
    | _ => .panicked ("not yet implemented")

/-- `CompressedZipFile::decompressed_contents_with_limit` (`lib.rs` lines
182-201).  The `Deflate` arm allocates a vector of exactly
`uncompressed_size` zeros and calls `read_exact` on it: that succeeds
returning the first `uncompressed_size` decoded bytes whenever the decoder
yields at least that many, and fails with an I/O error otherwise; bytes
beyond the requested count are never read and cause no error. -/
def decompressed_contents_with_limit (inflate : List Nat → Option (List Nat))
    (f : CompressedZipFile) (limit : Option Nat) : ZipOutcome (List Nat) :=
  if option_le limit (Option.some f.metadata.uncompressed_size) then
    .err (.FileTooLarge f.metadata.uncompressed_size)
  else
    match CompressionMethodName.from_u16 f.metadata.compression_method with
    | .None => .ok f.contents
    | .Deflate =>
      match inflate f.contents with
      | Option.none => .err .IoError
      | Option.some s =>
        if f.metadata.uncompressed_size ≤ s.length then
          .ok (s.take f.metadata.uncompressed_size)
        else .err .IoError
    | _ => .panicked ("not yet implemented")

/-! Serialization helpers used to state round-trip facts about the local
file header: `u16_le` / `u32_le` are the little-endian byte encodings that
`u16::to_le_bytes` / `u32::to_le_bytes` produce. -/

/-- Little-endian byte encoding of a 16-bit value. -/
def u16_le (n : Nat) : List Nat := [n % 256, n / 256 % 256]

/-- Little-endian byte encoding of a 32-bit value. -/
def u32_le (n : Nat) : List Nat :=
  [n % 256, n / 256 % 256, n / 65536 % 256, n / 16777216 % 256]

/-- Byte serialization of a local file header as laid out by the format
table in the spec and decoded by `read_file` / `read_metadata`: signature,
version-needed(2), flags(2), method(2), mtime(4), crc(4), compressed-size(4),
uncompressed-size(4), name-len(2), extra-len(2), name, extra. -/
def local_file_bytes (vn flags method dt crc cs us : Nat) (name extra : List Nat) :
    List Nat :=
  LOCAL_FILE_SIGNATURE ++ u16_le vn ++ u16_le flags ++ u16_le method ++ u32_le dt ++
    u32_le crc ++ u32_le cs ++ u32_le us ++ u16_le name.length ++ u16_le extra.length ++
    name ++ extra

/-- Byte serialization of a data descriptor, optionally prefixed by the
on-disk signature bytes `50 4b 07 08`. -/
def data_descriptor_bytes (withSig : Bool) (dcrc dcs dus : Nat) : List Nat :=
  (if withSig then [0x50, 0x4b, 0x07, 0x08] else []) ++
    u32_le dcrc ++ u32_le dcs ++ u32_le dus

/-- All-zero `Metadata`, used to populate fixture directory headers whose
metadata content is irrelevant to the scenario under test. -/
def zero_metadata : Metadata :=
  { version_needed := 0, compression_method := 0, date_time_modified := 0, flags := 0,
    name := [], extra_field := [], compressed_size := 0, uncompressed_size := 0, crc := 0 }

/-- Fixture central-directory header whose `local_header_offset` is 0. -/
def zero_header : CentralDirectoryFileHeader :=
  { os := 0, metadata := zero_metadata, disk_num_start := 0, internal_attributes := 0,
    external_attributes := 0, zip_specification_version := 0, local_header_offset := 0,
    comment := [] }

/-- Fixture for C1: a structurally valid, empty end-of-central-directory
record at offset 0 (22 bytes, zero counts, zero comment length) followed by a
bare copy of the end signature at offset 22.  The highest-offset candidate
(22) passes the signature check but runs off the end of the buffer while
reading the fixed fields; the candidate at offset 0 parses completely. -/
def c1_buffer : List Nat :=
  [0x50, 0x4b, 0x05, 0x06,
   0, 0, 0, 0, 0, 0, 0, 0, 0, 0, 0, 0, 0, 0, 0, 0, 0, 0] ++
  [0x50, 0x4b, 0x05, 0x06]

/-- Fixture for C2: a local file header with flag bit 3 set and zero-filled
crc/sizes, followed directly (after the empty name and extra field) by a
signature-prefixed data descriptor with crc `0x12345678` and sizes 2, and
then the two bytes `AA BB`. -/
def c2_buffer : List Nat :=
  LOCAL_FILE_SIGNATURE ++
  [0, 0] ++ [8, 0] ++ [0, 0] ++ [0, 0, 0, 0] ++
  [0, 0, 0, 0] ++ [0, 0, 0, 0] ++ [0, 0, 0, 0] ++
  [0, 0] ++ [0, 0] ++
  [0x50, 0x4b, 0x07, 0x08] ++ [0x78, 0x56, 0x34, 0x12] ++
  [2, 0, 0, 0] ++ [2, 0, 0, 0] ++
  [0xAA, 0xBB]

/-- The entry `read_file` produces from `c2_buffer`: metadata overwritten
with the descriptor's crc and sizes, contents taken after the descriptor. -/
def c2_file : CompressedZipFile :=
  { metadata := { version_needed := 0, compression_method := 0, date_time_modified := 0,
                  flags := 8, name := [], extra_field := [], compressed_size := 2,
                  uncompressed_size := 2, crc := 0x12345678 },
    contents := [0xAA, 0xBB] }

/-- Fixture for C4: an entry declaring compression method 12 (bzip2). -/
def c4_file : CompressedZipFile :=
  { metadata := { version_needed := 20, compression_method := 12, date_time_modified := 0,
                  flags := 0, name := [97], extra_field := [], compressed_size := 1,
                  uncompressed_size := 0, crc := 0 },
    contents := [0xAA] }

/-- Fixture for C5: a stored (method 0) local header whose compressed size
is 2 but whose declared uncompressed size is 5, with two content bytes. -/
def c5_buffer : List Nat :=
  LOCAL_FILE_SIGNATURE ++
  [0, 0] ++ [0, 0] ++ [0, 0] ++ [0, 0, 0, 0] ++
  [0, 0, 0, 0] ++ [2, 0, 0, 0] ++ [5, 0, 0, 0] ++
  [0, 0] ++ [0, 0] ++
  [0xAA, 0xBB]

/-- The entry `read_file` produces from `c5_buffer`. -/
def c5_file : CompressedZipFile :=
  { metadata := { version_needed := 0, compression_method := 0, date_time_modified := 0,
                  flags := 0, name := [], extra_field := [], compressed_size := 2,
                  uncompressed_size := 5, crc := 0 },
    contents := [0xAA, 0xBB] }

/-- Deflate-method fixture entry with declared uncompressed size 3. -/
def c5_deflate_file : CompressedZipFile :=
  { metadata := { version_needed := 20, compression_method := 8, date_time_modified := 0,
                  flags := 0, name := [], extra_field := [], compressed_size := 1,
                  uncompressed_size := 3, crc := 0 },
    contents := [0] }

/-- Fixture for C6: a stored (method 0) local header whose compressed size
is 2 but whose declared uncompressed size is 1, with two content bytes. -/
def c6_buffer : List Nat :=
  LOCAL_FILE_SIGNATURE ++
  [0, 0] ++ [0, 0] ++ [0, 0] ++ [0, 0, 0, 0] ++
  [0, 0, 0, 0] ++ [2, 0, 0, 0] ++ [1, 0, 0, 0] ++
  [0, 0] ++ [0, 0] ++
  [0xAA, 0xBB]

/-- The entry `read_file` produces from `c6_buffer`. -/
def c6_file : CompressedZipFile :=
  { metadata := { version_needed := 0, compression_method := 0, date_time_modified := 0,
                  flags := 0, name := [], extra_field := [], compressed_size := 2,
                  uncompressed_size := 1, crc := 0 },
    contents := [0xAA, 0xBB] }

/-- Fixture for C7: a two-byte buffer, so fewer than four bytes remain at
offset 0. -/
def c7_buffer : List Nat := [0x50, 0x4b]

/-- Fixture for C7's witness: five bytes that are not the local signature. -/
def c7_buffer2 : List Nat := [1, 2, 3, 4, 5]

/-- Fixture for C8: a truncated central-directory entry (signature plus one
byte) followed by a complete, all-zero end record whose central-directory
offset points back at the truncated entry.  Decoding the entry's fixed
fields runs past the end of the 27-byte buffer. -/
def c8_buffer : List Nat :=
  [0x50, 0x4b, 0x01, 0x02, 0] ++
  [0x50, 0x4b, 0x05, 0x06,
   0, 0, 0, 0, 0, 0, 0, 0, 0, 0, 0, 0, 0, 0, 0, 0, 0, 0]

/-- Fixture for C9: a lone end-of-central-directory record declaring
`total_entires = 1` while its central-directory offset points at the end
signature itself, so the directory walk decodes zero entries. -/
def c9_buffer : List Nat :=
  [0x50, 0x4b, 0x05, 0x06,
   0, 0, 0, 0, 0, 0, 1, 0, 0, 0, 0, 0, 0, 0, 0, 0, 0, 0]

/-- The directory `parse_central_directory` returns for `c9_buffer`. -/
def c9_directory : CentralDirectory :=
  { files := [],
    end_ := { disk_num := 0, disk_central_dir_num := 0, disk_entires := 0,
              total_entires := 1, central_dir_size := 0, central_dir_offset := 0 } }

/-- Deflate-method fixture entry with declared uncompressed size 2. -/
def c10_file : CompressedZipFile :=
  { metadata := { version_needed := 20, compression_method := 8, date_time_modified := 0,
                  flags := 0, name := [], extra_field := [], compressed_size := 1,
                  uncompressed_size := 2, crc := 0 },
    contents := [7] }

deriving instance DecidableEq for Except

theorem except_bind_ok {ε α β : Type} (a : α) (f : α → Except ε β) :
    (Except.ok a : Except ε α) >>= f = f a := rfl

theorem except_bind_error {ε α β : Type} (e : ε) (f : α → Except ε β) :
    (Except.error e : Except ε α) >>= f = .error e := rfl


/-- C1 (counterexample): in `c1_buffer` the end signature occurs at offsets
22 and 0; the candidate at 0 parses as a structurally valid end record and
its directory walk succeeds, yet `parse_central_directory` fails with the
end-of-buffer error produced by the higher candidate at 22, instead of
falling back to the lower candidate or reporting a missing central
directory. -/
theorem c1_counterexample :
    parse_central_directory c1_buffer = .error .UnexpectedEof ∧
    rfind_occurrences c1_buffer END_CENTRAL_DIRECTORY_SIGNATURE = [22, 0] ∧
    read_end_central_directory c1_buffer 0 =
      .ok ({ disk_num := 0, disk_central_dir_num := 0, disk_entires := 0,
             total_entires := 0, central_dir_size := 0, central_dir_offset := 0 }, 22) ∧
    read_central_directory_file_headers c1_buffer 0 = .ok [] :=
  ⟨by decide, by decide, by decide, by decide⟩

/-- C1 (amended): `parse_central_directory` enumerates end-signature
occurrences in strictly descending offset order but only ever attempts the
highest-offset one: if decoding that candidate fails, the error propagates
immediately and lower-offset candidates are not tried; the
missing-central-directory error arises exactly when the signature occurs
nowhere in the buffer. -/
theorem c1_amended :
    (∀ b : List Nat,
      List.Pairwise (· > ·) (rfind_occurrences b END_CENTRAL_DIRECTORY_SIGNATURE)) ∧
    (∀ b : List Nat,
      rfind_occurrences b END_CENTRAL_DIRECTORY_SIGNATURE = [] →
      parse_central_directory b = .error .MissingCentralDirectory) ∧
    (∀ (b : List Nat) (off : Nat) (rest : List Nat) (e : ZipParseError),
      rfind_occurrences b END_CENTRAL_DIRECTORY_SIGNATURE = off :: rest →
      read_end_central_directory b off = .error e →
      parse_central_directory b = .error e) := by
  refine ⟨?_, ?_, ?_⟩
  · intro b
    unfold rfind_occurrences
    rw [List.pairwise_reverse]
    exact (List.pairwise_lt_range b.length).filter _
  · intro b h
    unfold parse_central_directory
    rw [h]
  · intro b off rest e hocc herr
    unfold parse_central_directory
    simp only [hocc, herr, except_bind_error]

/-- C1 (witness): the amended statement evaluated on `c1_buffer` (descending
order of the candidates, the error of the offset-22 candidate surfacing
unchanged) and on the empty buffer (missing central directory). -/
theorem c1_amended_witness :
    List.Pairwise (· > ·) (rfind_occurrences c1_buffer END_CENTRAL_DIRECTORY_SIGNATURE) ∧
    parse_central_directory [] = .error .MissingCentralDirectory ∧
    parse_central_directory c1_buffer = .error .UnexpectedEof :=
  ⟨c1_amended.1 c1_buffer,
   c1_amended.2.1 [] (by decide),
   c1_amended.2.2 c1_buffer 22 [0] .UnexpectedEof (by decide) (by decide)⟩

/-- C3: with `limit = None` the size guard `Some(uncompressed_size) >= limit`
is always true (in `Option`'s derived order `None` is below every `Some`),
so both retrieval modes reject every entry with the file-too-large error —
the code's own documentation says `None` means no limit. -/
theorem c3_limit_none_always_rejects (inflate : List Nat → Option (List Nat))
    (f : CompressedZipFile) :
    write_with_limit inflate f Option.none =
        .err (.FileTooLarge f.metadata.uncompressed_size) ∧
    decompressed_contents_with_limit inflate f Option.none =
        .err (.FileTooLarge f.metadata.uncompressed_size) := by
  constructor
  · unfold write_with_limit
    rw [if_pos (by rfl)]
  · unfold decompressed_contents_with_limit
    rw [if_pos (by rfl)]

/-- C4: an entry declaring compression method 12 (bzip2) that passes the
size ceiling makes both retrieval modes hit `todo!()` — the process panics;
no unsupported-method error value is returned (none exists in
`ZipParseError`). -/
theorem c4_unsupported_method_panics :
    write_with_limit (fun _ => Option.none) c4_file (Option.some 10) =
        .panicked ("not yet implemented") ∧
    decompressed_contents_with_limit (fun _ => Option.none) c4_file (Option.some 10) =
        .panicked ("not yet implemented") :=
  ⟨by decide, by decide⟩

/-- C5 (counterexample): `c5_file` is a stored entry (decoded by `read_file`
from `c5_buffer`) whose contents are 2 bytes while its declared uncompressed
size is 5; streamed retrieval succeeds writing 2 bytes — no data-integrity
error, contradicting the claim for the stored method. -/
theorem c5_counterexample :
    read_file c5_buffer zero_header = .ok c5_file ∧
    write_with_limit (fun _ => Option.none) c5_file (Option.some 100) = .ok [0xAA, 0xBB] ∧
    ([0xAA, 0xBB] : List Nat).length ≠ c5_file.metadata.uncompressed_size :=
  ⟨by decide, by decide, by decide⟩

/-- C5 (amended): the exact-count verification applies to the deflate path
only: a deflate entry's streamed retrieval succeeds only when the bytes
written equal the declared uncompressed size, and a count mismatch yields
the "failed to write full buffer" error; the stored path writes the
compressed slice without any such check. -/
theorem c5_amended :
    (∀ (inflate : List Nat → Option (List Nat)) (f : CompressedZipFile)
        (limit : Option Nat) (out : List Nat),
      CompressionMethodName.from_u16 f.metadata.compression_method = .Deflate →
      write_with_limit inflate f limit = .ok out →
      out.length = f.metadata.uncompressed_size) ∧
    (∀ (inflate : List Nat → Option (List Nat)) (f : CompressedZipFile)
        (limit : Option Nat) (s : List Nat),
      CompressionMethodName.from_u16 f.metadata.compression_method = .Deflate →
      option_le limit (Option.some f.metadata.uncompressed_size) = false →
      inflate f.contents = Option.some s →
      s.length ≠ f.metadata.uncompressed_size →
      write_with_limit inflate f limit =
        .err (.Generic ("failed to write full buffer"))) := by
  constructor
  · intro inflate f limit out hm hw
    unfold write_with_limit at hw
    split at hw
    · cases hw
    · simp only [hm] at hw
      cases hinf : inflate f.contents with
      | none => simp only [hinf] at hw; cases hw
      | some s =>
        simp only [hinf] at hw
        split at hw
        · cases hw
        · rename_i hlen
          cases hw
          exact not_not.mp hlen
  · intro inflate f limit s hm hcheck hinf hne
    unfold write_with_limit
    rw [if_neg (by rw [hcheck]; simp)]
    simp only [hm, hinf]
    rw [if_pos hne]

/-- C5 (witness): the amended statement evaluated on a deflate fixture with
declared uncompressed size 3 — a 3-byte decoder stream succeeds with count
3, a 1-byte stream is a "failed to write full buffer" error. -/
theorem c5_amended_witness :
    write_with_limit (fun _ => Option.some [7, 7, 7]) c5_deflate_file (Option.some 10) =
        .ok [7, 7, 7] ∧
    ([7, 7, 7] : List Nat).length = 3 ∧
    write_with_limit (fun _ => Option.some [7]) c5_deflate_file (Option.some 10) =
        .err (.Generic ("failed to write full buffer")) := by
  refine ⟨by decide, ?_, ?_⟩
  · exact c5_amended.1 (fun _ => Option.some [7, 7, 7]) c5_deflate_file (Option.some 10)
      [7, 7, 7] (by decide) (by decide)
  · exact c5_amended.2 (fun _ => Option.some [7]) c5_deflate_file (Option.some 10) [7]
      (by decide) (by decide) rfl (by decide)

/-- C6 (counterexample): `c6_file` (decoded by `read_file` from `c6_buffer`)
is a stored entry with compressed size 2 and declared uncompressed size 1;
buffered retrieval under ceiling 100 succeeds and returns the compressed
bytes, but `uncompressed_size ≠ compressed_size` — the claim's equality is
not enforced by the code. -/
theorem c6_counterexample :
    read_file c6_buffer zero_header = .ok c6_file ∧
    decompressed_contents_with_limit (fun _ => Option.none) c6_file (Option.some 100) =
        .ok [0xAA, 0xBB] ∧
    c6_file.metadata.uncompressed_size ≠ c6_file.metadata.compressed_size :=
  ⟨by decide, by decide, by decide⟩

/-- C6 (amended): for every stored entry (method 0) whose declared
uncompressed size is below the supplied ceiling, buffered retrieval returns
exactly the compressed contents slice; the equality of uncompressed and
compressed sizes holds only when the archive's metadata is itself
consistent and is not checked by the code. -/
theorem c6_amended (inflate : List Nat → Option (List Nat)) (f : CompressedZipFile)
    (cap : Nat) (hm : f.metadata.compression_method = 0)
    (hlt : f.metadata.uncompressed_size < cap) :
    decompressed_contents_with_limit inflate f (Option.some cap) = .ok f.contents := by
  unfold decompressed_contents_with_limit
  rw [if_neg (by simp only [option_le]; simp; omega)]
  simp only [hm]
  rfl

/-- C6 (witness): the amended statement evaluated on `c6_file` with
ceiling 50. -/
theorem c6_amended_witness :
    decompressed_contents_with_limit (fun _ => Option.none) c6_file (Option.some 50) =
        .ok [0xAA, 0xBB] :=
  c6_amended (fun _ => Option.none) c6_file 50 rfl (by decide)

/-- C7 (counterexample): a local-header offset with fewer than four bytes
remaining makes `read_file` fail with the generic
"expected 4 byte signature" error — not with a signature-mismatch error
carrying the found and expected bytes, as the claim requires for all
non-signature positions. -/
theorem c7_counterexample :
    read_file c7_buffer zero_header = .error (.Generic ("expected 4 byte signature")) :=
  by decide

/-- C7 (amended): when at least four bytes remain at the entry's
local-header offset and they differ from `50 4b 03 04`, `read_file` fails
with the signature-mismatch error carrying both the found and the expected
bytes; when fewer than four bytes remain it fails with the generic
"expected 4 byte signature" error instead.  Both outcomes are typed errors
(the parser is a total function into `Except`), never panics. -/
theorem c7_amended :
    (∀ (b : List Nat) (hdr : CentralDirectoryFileHeader),
      b.length ≤ hdr.local_header_offset + 3 →
      read_file b hdr = .error (.Generic ("expected 4 byte signature"))) ∧
    (∀ (b : List Nat) (hdr : CentralDirectoryFileHeader),
      hdr.local_header_offset + 3 < b.length →
      [b.getD hdr.local_header_offset 0, b.getD (hdr.local_header_offset + 1) 0,
       b.getD (hdr.local_header_offset + 2) 0, b.getD (hdr.local_header_offset + 3) 0]
        ≠ LOCAL_FILE_SIGNATURE →
      read_file b hdr = .error (.MalformedSignature
        [b.getD hdr.local_header_offset 0, b.getD (hdr.local_header_offset + 1) 0,
         b.getD (hdr.local_header_offset + 2) 0, b.getD (hdr.local_header_offset + 3) 0]
        LOCAL_FILE_SIGNATURE)) := by
  constructor
  · intro b hdr h
    have hsig : expect_signature LOCAL_FILE_SIGNATURE b hdr.local_header_offset =
        .error (.Generic ("expected 4 byte signature")) := by
      unfold expect_signature
      rw [if_pos h]
    unfold read_file
    simp only [hsig, except_bind_error]
  · intro b hdr hlt hne
    have hsig : expect_signature LOCAL_FILE_SIGNATURE b hdr.local_header_offset =
        .error (.MalformedSignature
          [b.getD hdr.local_header_offset 0, b.getD (hdr.local_header_offset + 1) 0,
           b.getD (hdr.local_header_offset + 2) 0, b.getD (hdr.local_header_offset + 3) 0]
          LOCAL_FILE_SIGNATURE) := by
      unfold expect_signature
      rw [if_neg (by omega)]
      exact if_neg hne
    unfold read_file
    simp only [hsig, except_bind_error]

/-- C7 (witness): the amended statement evaluated on the two-byte buffer
(generic error) and on a five-byte buffer of non-signature bytes
(mismatch error carrying found and expected). -/
theorem c7_amended_witness :
    read_file c7_buffer zero_header = .error (.Generic ("expected 4 byte signature")) ∧
    read_file c7_buffer2 zero_header =
      .error (.MalformedSignature [1, 2, 3, 4] LOCAL_FILE_SIGNATURE) :=
  ⟨c7_amended.1 c7_buffer zero_header (by decide),
   c7_amended.2 c7_buffer2 zero_header (by decide) (by decide)⟩

/-- C8: the decode steps fail with the typed end-of-buffer error whenever a
read would pass the end of the buffer (`read_byte` for fixed-width fields,
`get_byte_range` for declared variable-length ranges), and when the
central-directory walk of the selected end record fails with that error,
opening the archive (`from_buffer`) returns exactly the end-of-buffer error
value — a typed failure propagated unchanged, never a panic (every parsing
function is total into `Except`). -/
theorem c8_truncation_typed_eof :
    (∀ (b : List Nat) (c : Nat), b.length ≤ c →
      read_byte b c = .error .UnexpectedEof) ∧
    (∀ (b : List Nat) (c len : Nat), b.length < c + len →
      get_byte_range b c len = .error .UnexpectedEof) ∧
    (∀ (b : List Nat) (off : Nat) (rest : List Nat) (e : EndCentralDirectory) (c : Nat),
      rfind_occurrences b END_CENTRAL_DIRECTORY_SIGNATURE = off :: rest →
      read_end_central_directory b off = .ok (e, c) →
      read_central_directory_file_headers b e.central_dir_offset =
        .error .UnexpectedEof →
      from_buffer b = .error .UnexpectedEof) := by
  refine ⟨?_, ?_, ?_⟩
  · intro b c h
    unfold read_byte
    rw [List.get?_eq_getElem?, List.getElem?_eq_none h]
  · intro b c len h
    unfold get_byte_range
    rw [if_neg (by omega)]
  · intro b off rest e c hocc hend hwalk
    unfold from_buffer parse_central_directory
    simp only [hocc, hend, hwalk, except_bind_ok, except_bind_error]

/-- C8 (witness): the statement evaluated on the truncated fixture
`c8_buffer`: a fixed-field read at 27 and a 10-byte range at 20 both report
end-of-buffer, and opening the archive reports end-of-buffer. -/
theorem c8_truncation_typed_eof_witness :
    read_byte c8_buffer 27 = .error .UnexpectedEof ∧
    get_byte_range c8_buffer 20 10 = .error .UnexpectedEof ∧
    from_buffer c8_buffer = .error .UnexpectedEof :=
  ⟨c8_truncation_typed_eof.1 c8_buffer 27 (by decide),
   c8_truncation_typed_eof.2.1 c8_buffer 20 10 (by decide),
   c8_truncation_typed_eof.2.2 c8_buffer 5 []
     { disk_num := 0, disk_central_dir_num := 0, disk_entires := 0, total_entires := 0,
       central_dir_size := 0, central_dir_offset := 0 } 27
     (by decide) (by decide) (by decide)⟩

/-- C9 (counterexample): `c9_buffer` parses successfully into a directory
whose end record declares `total_entires = 1` while the decoded file
sequence is empty — the count is recorded but never validated against the
number of decoded entries. -/
theorem c9_counterexample :
    parse_central_directory c9_buffer = .ok c9_directory ∧
    c9_directory.files.length ≠ c9_directory.end_.total_entires :=
  ⟨by decide, by decide⟩

/-- C9 (amended): whenever `parse_central_directory` succeeds, the returned
files are exactly the headers decoded by the signature-terminated walk
starting at the end record's `central_dir_offset`; the walk stops when the
entry signature no longer matches, independently of `total_entires`, so the
declared count equals the file count only for archives whose end record is
itself accurate. -/
theorem c9_amended (b : List Nat) (d : CentralDirectory)
    (h : parse_central_directory b = .ok d) :
    read_central_directory_file_headers b d.end_.central_dir_offset = .ok d.files := by
  unfold parse_central_directory at h
  cases hocc : rfind_occurrences b END_CENTRAL_DIRECTORY_SIGNATURE with
  | nil => rw [hocc] at h; cases h
  | cons off rest =>
    rw [hocc] at h
    cases hend : read_end_central_directory b off with
    | error e2 => simp only [hend, except_bind_error] at h; cases h
    | ok ec =>
      obtain ⟨e, c⟩ := ec
      simp only [hend, except_bind_ok] at h
      cases hfiles : read_central_directory_file_headers b e.central_dir_offset with
      | error e3 => simp only [hfiles, except_bind_error] at h; cases h
      | ok files =>
        simp only [hfiles, except_bind_ok] at h
        cases h
        exact hfiles

/-- C9 (witness): the amended statement evaluated on `c9_buffer`. -/
theorem c9_amended_witness :
    read_central_directory_file_headers c9_buffer 0 = .ok [] :=
  c9_amended c9_buffer c9_directory (by decide)

/-- C10: when buffered retrieval runs the deflate path (the method name is
`Deflate`), the size check passes, and the decoder yields a stream of at
least the declared uncompressed size, the call succeeds and returns exactly
the first `uncompressed_size` decoded bytes: the result length equals the
declared size, and any additional decoded data is neither read nor treated
as an error (unlike the streamed mode's exact-count check). -/
theorem c10_deflate_buffered_exact (inflate : List Nat → Option (List Nat))
    (f : CompressedZipFile) (limit : Option Nat) (s : List Nat)
    (hm : CompressionMethodName.from_u16 f.metadata.compression_method = .Deflate)
    (hcheck : option_le limit (Option.some f.metadata.uncompressed_size) = false)
    (hinf : inflate f.contents = Option.some s)
    (hlen : f.metadata.uncompressed_size ≤ s.length) :
    decompressed_contents_with_limit inflate f limit =
        .ok (s.take f.metadata.uncompressed_size) ∧
    (s.take f.metadata.uncompressed_size).length = f.metadata.uncompressed_size := by
  constructor
  · unfold decompressed_contents_with_limit
    rw [if_neg (by rw [hcheck]; simp)]
    simp only [hm, hinf]
    rw [if_pos hlen]
  · rw [List.length_take]
    omega

/-- C10 (witness): the statement evaluated on a deflate fixture declaring
uncompressed size 2 with a 3-byte decoder stream: retrieval succeeds with
the first two bytes and no error despite the extra decoded byte. -/
theorem c10_deflate_buffered_exact_witness :
    decompressed_contents_with_limit (fun _ => Option.some [1, 2, 3]) c10_file
        (Option.some 10) = .ok [1, 2] ∧
    ([1, 2] : List Nat).length = 2 := by
  have h := c10_deflate_buffered_exact (fun _ => Option.some [1, 2, 3]) c10_file
    (Option.some 10) [1, 2, 3] (by decide) (by decide) rfl (by decide)
  exact ⟨h.1, h.2⟩

theorem u16_le_length (n : Nat) : (u16_le n).length = 2 := rfl

theorem u32_le_length (n : Nat) : (u32_le n).length = 4 := rfl

theorem except_bind_pure {ε α β : Type} (a : α) (f : α → Except ε β) :
    (pure a : Except ε α) >>= f = f a := rfl

theorem drop_cons_step {b : List Nat} {c x : Nat} {rest : List Nat}
    (h : b.drop c = x :: rest) : b.drop (c + 1) = rest := by
  rw [← List.drop_drop, h]
  rfl

theorem drop_chunk_step {b : List Nat} {c : Nat} (l : List Nat) {rest : List Nat}
    (h : b.drop c = l ++ rest) : b.drop (c + l.length) = rest := by
  rw [← List.drop_drop, h, List.drop_left]

theorem getD_of_drop {b : List Nat} {c x : Nat} {rest : List Nat}
    (h : b.drop c = x :: rest) : b.getD c 0 = x := by
  rw [List.getD_eq_getElem?_getD, ← List.head?_drop, h]
  rfl

theorem read_byte_at {b : List Nat} {c x : Nat} {rest : List Nat}
    (h : b.drop c = x :: rest) : read_byte b c = .ok (x, c + 1) := by
  unfold read_byte
  rw [List.get?_eq_getElem?, ← List.head?_drop, h]
  rfl

theorem u16_le_recompose (n : Nat) (hn : n < 65536) :
    n % 256 + 256 * (n / 256 % 256) = n := by
  have hd : n / 256 < 256 := by omega
  rw [Nat.mod_eq_of_lt hd]
  exact Nat.mod_add_div n 256

theorem u32_le_recompose (n : Nat) (hn : n < 4294967296) :
    n % 256 + 256 * (n / 256 % 256) + 65536 * (n / 65536 % 256) +
      16777216 * (n / 16777216 % 256) = n := by
  have d1 : n / 256 / 256 = n / 65536 := by rw [Nat.div_div_eq_div_mul]
  have d2 : n / 65536 / 256 = n / 16777216 := by rw [Nat.div_div_eq_div_mul]
  have m0 := Nat.mod_add_div n 256
  have m1 := Nat.mod_add_div (n / 256) 256
  have m2 := Nat.mod_add_div (n / 65536) 256
  have hd : n / 16777216 < 256 := by omega
  have m3 : n / 16777216 % 256 = n / 16777216 := Nat.mod_eq_of_lt hd
  rw [d1] at m1
  rw [d2] at m2
  calc n % 256 + 256 * (n / 256 % 256) + 65536 * (n / 65536 % 256) +
        16777216 * (n / 16777216 % 256)
      = n % 256 + 256 * (n / 256 % 256) + 65536 * (n / 65536 % 256 +
        256 * (n / 16777216 % 256)) := by ring
    _ = n % 256 + 256 * (n / 256 % 256) + 65536 * (n / 65536 % 256 +
        256 * (n / 16777216)) := by rw [m3]
    _ = n % 256 + 256 * (n / 256 % 256) + 65536 * (n / 65536) := by rw [m2]
    _ = n % 256 + 256 * (n / 256 % 256 + 256 * (n / 65536)) := by ring
    _ = n % 256 + 256 * (n / 256) := by rw [m1]
    _ = n := m0

theorem read_u16_at {b : List Nat} {c n : Nat} {rest : List Nat}
    (h : b.drop c = u16_le n ++ rest) (hn : n < 65536) :
    read_u16 b c = .ok (n, c + 2) := by
  have h0 : b.drop c = n % 256 :: (n / 256 % 256 :: rest) := by simpa [u16_le] using h
  have h1 := drop_cons_step h0
  simp only [read_u16, read_byte_at h0, read_byte_at h1, except_bind_ok]
  simp only [Except.ok.injEq, Prod.mk.injEq]
  exact ⟨u16_le_recompose n hn, trivial⟩

theorem read_u32_at {b : List Nat} {c n : Nat} {rest : List Nat}
    (h : b.drop c = u32_le n ++ rest) (hn : n < 4294967296) :
    read_u32 b c = .ok (n, c + 4) := by
  have h0 : b.drop c =
      n % 256 :: (n / 256 % 256 :: (n / 65536 % 256 :: (n / 16777216 % 256 :: rest))) := by
    simpa [u32_le] using h
  have h1 := drop_cons_step h0
  have h2 := drop_cons_step h1
  have h3 := drop_cons_step h2
  simp only [read_u32, read_byte_at h0, read_byte_at h1, read_byte_at h2, read_byte_at h3,
    except_bind_ok]
  simp only [Except.ok.injEq, Prod.mk.injEq]
  exact ⟨u32_le_recompose n hn, trivial⟩

theorem expect_signature_at {b : List Nat} {c s0 s1 s2 s3 : Nat} {rest : List Nat}
    (h : b.drop c = s0 :: s1 :: s2 :: s3 :: rest) :
    expect_signature [s0, s1, s2, s3] b c = .ok ((), c + 4) := by
  have hlen : c + 3 < b.length := by
    have hl := congrArg List.length h
    rw [List.length_drop] at hl
    simp only [List.length_cons] at hl
    omega
  have g0 := getD_of_drop h
  have g1 := getD_of_drop (drop_cons_step h)
  have g2 := getD_of_drop (drop_cons_step (drop_cons_step h))
  have g3 := getD_of_drop (drop_cons_step (drop_cons_step (drop_cons_step h)))
  unfold expect_signature
  rw [if_neg (by omega)]
  simp only [g0, g1, g2, g3, Nat.reduceAdd]
  simp

theorem get_byte_range_at {b : List Nat} {c : Nat} (l : List Nat) {rest : List Nat}
    (h : b.drop c = l ++ rest) (hc : c ≤ b.length) :
    get_byte_range b c l.length = .ok (l, c + l.length) := by
  have hl := congrArg List.length h
  rw [List.length_drop, List.length_append] at hl
  unfold get_byte_range
  rw [if_pos (by omega), h, List.take_left]

/-- C2 (counterexample): `c2_buffer` holds a local header with zero-filled
declared sizes, flag bit 3 set, a signature-prefixed descriptor directly
after the (empty) extra field at position 30, and two bytes after the
descriptor.  The claim predicts contents equal to the declared
`compressed_size` (0) bytes following the extra field — the empty slice
`(c2_buffer.drop 30).take 0` — with the descriptor read after them; the code
instead returns the two bytes located after the descriptor. -/
theorem c2_counterexample :
    read_file c2_buffer zero_header = .ok c2_file ∧
    c2_file.contents = [0xAA, 0xBB] ∧
    c2_file.contents ≠ (c2_buffer.drop 30).take 0 :=
  ⟨by decide, by decide, by decide⟩


theorem data_descriptor_bytes_false (dcrc dcs dus : Nat) :
    data_descriptor_bytes false dcrc dcs dus =
      u32_le dcrc ++ u32_le dcs ++ u32_le dus := rfl

theorem data_descriptor_bytes_true (dcrc dcs dus : Nat) :
    data_descriptor_bytes true dcrc dcs dus =
      80 :: 75 :: 7 :: 8 :: (u32_le dcrc ++ u32_le dcs ++ u32_le dus) := rfl

theorem read_metadata_desc_sig {b : List Nat}
    {c c1 c2 c3 c4 c5 c6 c7 c8 c9 c10 c11 c12 c13 c14 c15 : Nat}
    {vn flags method dt crc0 cs0 us0 nl el dcrc1 dcs1 dus1 : Nat} {name extra : List Nat}
    (hflag : has_data_descriptor flags = true)
    (h1 : read_u16 b c = .ok (vn, c1))
    (h2 : read_u16 b c1 = .ok (flags, c2))
    (h3 : read_u16 b c2 = .ok (method, c3))
    (h4 : read_u32 b c3 = .ok (dt, c4))
    (h5 : read_u32 b c4 = .ok (crc0, c5))
    (h6 : read_u32 b c5 = .ok (cs0, c6))
    (h7 : read_u32 b c6 = .ok (us0, c7))
    (h8 : read_u16 b c7 = .ok (nl, c8))
    (h9 : read_u16 b c8 = .ok (el, c9))
    (h10 : get_byte_range b c9 nl = .ok (name, c10))
    (h11 : get_byte_range b c10 el = .ok (extra, c11))
    (h12 : read_u32 b c11 = .ok (134695760, c12))
    (h13 : read_u32 b c12 = .ok (dcrc1, c13))
    (h14 : read_u32 b c13 = .ok (dcs1, c14))
    (h15 : read_u32 b c14 = .ok (dus1, c15)) :
    read_metadata b c =
      .ok ({ version_needed := vn, compression_method := method,
             date_time_modified := dt, flags := flags, name := name,
             extra_field := extra, compressed_size := dcs1,
             uncompressed_size := dus1, crc := dcrc1 }, c15) := by
  unfold read_metadata
  rw [h1, except_bind_ok]
  show (read_u16 b c1 >>= _) = _
  rw [h2, except_bind_ok]
  show (read_u16 b c2 >>= _) = _
  rw [h3, except_bind_ok]
  show (read_u32 b c3 >>= _) = _
  rw [h4, except_bind_ok]
  show (read_u32 b c4 >>= _) = _
  rw [h5, except_bind_ok]
  show (read_u32 b c5 >>= _) = _
  rw [h6, except_bind_ok]
  show (read_u32 b c6 >>= _) = _
  rw [h7, except_bind_ok]
  show (read_u16 b c7 >>= _) = _
  rw [h8, except_bind_ok]
  show (read_u16 b c8 >>= _) = _
  rw [h9, except_bind_ok]
  show (get_byte_range b c9 nl >>= _) = _
  rw [h10, except_bind_ok]
  show (get_byte_range b c10 el >>= _) = _
  rw [h11, except_bind_ok]
  rw [hflag]
  show (read_u32 b c11 >>= _) = _
  rw [h12, except_bind_ok]
  show (read_u32 b c12 >>= _) = _
  rw [h13, except_bind_ok]
  show (read_u32 b c13 >>= _) = _
  rw [h14, except_bind_ok]
  show (read_u32 b c14 >>= _) = _
  rw [h15, except_bind_ok]

theorem read_metadata_desc_nosig {b : List Nat}
    {c c1 c2 c3 c4 c5 c6 c7 c8 c9 c10 c11 c12 c13 c14 : Nat}
    {vn flags method dt crc0 cs0 us0 nl el dcrc1 dcs1 dus1 : Nat} {name extra : List Nat}
    (hflag : has_data_descriptor flags = true)
    (hne : dcrc1 ≠ 134695760)
    (h1 : read_u16 b c = .ok (vn, c1))
    (h2 : read_u16 b c1 = .ok (flags, c2))
    (h3 : read_u16 b c2 = .ok (method, c3))
    (h4 : read_u32 b c3 = .ok (dt, c4))
    (h5 : read_u32 b c4 = .ok (crc0, c5))
    (h6 : read_u32 b c5 = .ok (cs0, c6))
    (h7 : read_u32 b c6 = .ok (us0, c7))
    (h8 : read_u16 b c7 = .ok (nl, c8))
    (h9 : read_u16 b c8 = .ok (el, c9))
    (h10 : get_byte_range b c9 nl = .ok (name, c10))
    (h11 : get_byte_range b c10 el = .ok (extra, c11))
    (h12 : read_u32 b c11 = .ok (dcrc1, c12))
    (h13 : read_u32 b c12 = .ok (dcs1, c13))
    (h14 : read_u32 b c13 = .ok (dus1, c14)) :
    read_metadata b c =
      .ok ({ version_needed := vn, compression_method := method,
             date_time_modified := dt, flags := flags, name := name,
             extra_field := extra, compressed_size := dcs1,
             uncompressed_size := dus1, crc := dcrc1 }, c14) := by
  unfold read_metadata
  rw [h1, except_bind_ok]
  show (read_u16 b c1 >>= _) = _
  rw [h2, except_bind_ok]
  show (read_u16 b c2 >>= _) = _
  rw [h3, except_bind_ok]
  show (read_u32 b c3 >>= _) = _
  rw [h4, except_bind_ok]
  show (read_u32 b c4 >>= _) = _
  rw [h5, except_bind_ok]
  show (read_u32 b c5 >>= _) = _
  rw [h6, except_bind_ok]
  show (read_u32 b c6 >>= _) = _
  rw [h7, except_bind_ok]
  show (read_u16 b c7 >>= _) = _
  rw [h8, except_bind_ok]
  show (read_u16 b c8 >>= _) = _
  rw [h9, except_bind_ok]
  show (get_byte_range b c9 nl >>= _) = _
  rw [h10, except_bind_ok]
  show (get_byte_range b c10 el >>= _) = _
  rw [h11, except_bind_ok]
  rw [hflag]
  show (read_u32 b c11 >>= _) = _
  rw [h12, except_bind_ok]
  simp only [if_neg hne, except_bind_pure, h13, h14, except_bind_ok]

theorem read_file_eq {b : List Nat} {hdr : CentralDirectoryFileHeader}
    {c1 c2 c3 : Nat} {m : Metadata} {contents : List Nat}
    (hsig : expect_signature LOCAL_FILE_SIGNATURE b hdr.local_header_offset =
      .ok ((), c1))
    (hm : read_metadata b c1 = .ok (m, c2))
    (hc : get_byte_range b c2 m.compressed_size = .ok (contents, c3)) :
    read_file b hdr = .ok { metadata := m, contents := contents } := by
  unfold read_file
  show (expect_signature LOCAL_FILE_SIGNATURE b hdr.local_header_offset >>= _) = _
  rw [hsig, except_bind_ok]
  show (read_metadata b c1 >>= _) = _
  rw [hm, except_bind_ok]
  show (get_byte_range b c2 m.compressed_size >>= _) = _
  rw [hc, except_bind_ok]

/-- C2 (amended): for every local header with flag bit 3 set, `read_file`
parses the fixed fields, name and extra field, then reads the (optionally
signature-prefixed) data descriptor immediately after the extra field —
before any compressed bytes — overwrites the metadata's CRC, compressed
size and uncompressed size with the descriptor's values (in particular a
zero-filled header reports the descriptor's values, not zero), and then
takes the descriptor's compressed-size bytes following the descriptor as
the compressed contents; the declared compressed size plays no role in
locating either the descriptor or the contents. -/
theorem c2_amended (vn flags method dt crc cs us dcrc dcs dus : Nat)
    (name extra contents trailing : List Nat) (withSig : Bool)
    (hdr : CentralDirectoryFileHeader) (hoff : hdr.local_header_offset = 0)
    (hflag : flags &&& 8 ≠ 0)
    (hvn : vn < 65536) (hflags : flags < 65536) (hmethod : method < 65536)
    (hdt : dt < 4294967296) (hcrc : crc < 4294967296) (hcs : cs < 4294967296)
    (hus : us < 4294967296) (hname : name.length < 65536)
    (hextra : extra.length < 65536) (hdcrc : dcrc < 4294967296)
    (hdcs : dcs < 4294967296) (hdus : dus < 4294967296)
    (hclen : contents.length = dcs)
    (hnosig : withSig = false → dcrc ≠ 134695760) :
    read_file (local_file_bytes vn flags method dt crc cs us name extra ++
        data_descriptor_bytes withSig dcrc dcs dus ++ contents ++ trailing) hdr =
      .ok { metadata := { version_needed := vn, compression_method := method,
                          date_time_modified := dt, flags := flags, name := name,
                          extra_field := extra, compressed_size := dcs,
                          uncompressed_size := dus, crc := dcrc },
            contents := contents } := by
  subst hclen
  cases withSig with
  | false =>
    set b : List Nat := local_file_bytes vn flags method dt crc cs us name extra ++
        data_descriptor_bytes false dcrc contents.length dus ++ contents ++ trailing with hb
    have h0 : b.drop 0 = 80 :: 75 :: 3 :: 4 :: (u16_le vn ++ (u16_le flags ++ (u16_le method ++ (u32_le dt ++ (u32_le crc ++ (u32_le cs ++ (u32_le us ++ (u16_le name.length ++ (u16_le extra.length ++ (name ++ (extra ++ (u32_le dcrc ++ (u32_le contents.length ++ (u32_le dus ++ (contents ++ trailing))))))))))))))) := by
      simp only [hb, local_file_bytes, data_descriptor_bytes_false, LOCAL_FILE_SIGNATURE,
        List.append_assoc, List.cons_append, List.nil_append, List.drop_zero]
    have h4 : b.drop 4 = u16_le vn ++ (u16_le flags ++ (u16_le method ++ (u32_le dt ++ (u32_le crc ++ (u32_le cs ++ (u32_le us ++ (u16_le name.length ++ (u16_le extra.length ++ (name ++ (extra ++ (u32_le dcrc ++ (u32_le contents.length ++ (u32_le dus ++ (contents ++ trailing)))))))))))))) :=
      drop_cons_step (drop_cons_step (drop_cons_step (drop_cons_step h0)))
    have h6 : b.drop (6) = u16_le flags ++ (u16_le method ++ (u32_le dt ++ (u32_le crc ++ (u32_le cs ++ (u32_le us ++ (u16_le name.length ++ (u16_le extra.length ++ (name ++ (extra ++ (u32_le dcrc ++ (u32_le contents.length ++ (u32_le dus ++ (contents ++ trailing))))))))))))) := by
      have hh := drop_chunk_step (u16_le vn) h4
      simpa only [u16_le_length, Nat.reduceAdd] using hh
    have h8 : b.drop (8) = u16_le method ++ (u32_le dt ++ (u32_le crc ++ (u32_le cs ++ (u32_le us ++ (u16_le name.length ++ (u16_le extra.length ++ (name ++ (extra ++ (u32_le dcrc ++ (u32_le contents.length ++ (u32_le dus ++ (contents ++ trailing)))))))))))) := by
      have hh := drop_chunk_step (u16_le flags) h6
      simpa only [u16_le_length, Nat.reduceAdd] using hh
    have h10 : b.drop (10) = u32_le dt ++ (u32_le crc ++ (u32_le cs ++ (u32_le us ++ (u16_le name.length ++ (u16_le extra.length ++ (name ++ (extra ++ (u32_le dcrc ++ (u32_le contents.length ++ (u32_le dus ++ (contents ++ trailing))))))))))) := by
      have hh := drop_chunk_step (u16_le method) h8
      simpa only [u16_le_length, Nat.reduceAdd] using hh
    have h14 : b.drop (14) = u32_le crc ++ (u32_le cs ++ (u32_le us ++ (u16_le name.length ++ (u16_le extra.length ++ (name ++ (extra ++ (u32_le dcrc ++ (u32_le contents.length ++ (u32_le dus ++ (contents ++ trailing)))))))))) := by
      have hh := drop_chunk_step (u32_le dt) h10
      simpa only [u32_le_length, Nat.reduceAdd] using hh
    have h18 : b.drop (18) = u32_le cs ++ (u32_le us ++ (u16_le name.length ++ (u16_le extra.length ++ (name ++ (extra ++ (u32_le dcrc ++ (u32_le contents.length ++ (u32_le dus ++ (contents ++ trailing))))))))) := by
      have hh := drop_chunk_step (u32_le crc) h14
      simpa only [u32_le_length, Nat.reduceAdd] using hh
    have h22 : b.drop (22) = u32_le us ++ (u16_le name.length ++ (u16_le extra.length ++ (name ++ (extra ++ (u32_le dcrc ++ (u32_le contents.length ++ (u32_le dus ++ (contents ++ trailing)))))))) := by
      have hh := drop_chunk_step (u32_le cs) h18
      simpa only [u32_le_length, Nat.reduceAdd] using hh
    have h26 : b.drop (26) = u16_le name.length ++ (u16_le extra.length ++ (name ++ (extra ++ (u32_le dcrc ++ (u32_le contents.length ++ (u32_le dus ++ (contents ++ trailing))))))) := by
      have hh := drop_chunk_step (u32_le us) h22
      simpa only [u32_le_length, Nat.reduceAdd] using hh
    have h28 : b.drop (28) = u16_le extra.length ++ (name ++ (extra ++ (u32_le dcrc ++ (u32_le contents.length ++ (u32_le dus ++ (contents ++ trailing)))))) := by
      have hh := drop_chunk_step (u16_le name.length) h26
      simpa only [u16_le_length, Nat.reduceAdd] using hh
    have h30 : b.drop (30) = name ++ (extra ++ (u32_le dcrc ++ (u32_le contents.length ++ (u32_le dus ++ (contents ++ trailing))))) := by
      have hh := drop_chunk_step (u16_le extra.length) h28
      simpa only [u16_le_length, Nat.reduceAdd] using hh
    have hName : b.drop (30 + name.length) = extra ++ (u32_le dcrc ++ (u32_le contents.length ++ (u32_le dus ++ (contents ++ trailing)))) :=
      drop_chunk_step name h30
    have hExtra : b.drop (30 + name.length + extra.length) = u32_le dcrc ++ (u32_le contents.length ++ (u32_le dus ++ (contents ++ trailing))) :=
      drop_chunk_step extra hName
    have hD1 : b.drop (30 + name.length + extra.length + 4) = u32_le contents.length ++ (u32_le dus ++ (contents ++ trailing)) := by
      have hh := drop_chunk_step (u32_le dcrc) hExtra
      simpa only [u32_le_length] using hh
    have hD2 : b.drop (30 + name.length + extra.length + 4 + 4) = u32_le dus ++ (contents ++ trailing) := by
      have hh := drop_chunk_step (u32_le contents.length) hD1
      simpa only [u32_le_length] using hh
    have hD3 : b.drop (30 + name.length + extra.length + 4 + 4 + 4) = contents ++ trailing := by
      have hh := drop_chunk_step (u32_le dus) hD2
      simpa only [u32_le_length] using hh
    have hblen : b.length = 42 + name.length + extra.length + contents.length + trailing.length := by
      simp [hb, local_file_bytes, data_descriptor_bytes_false, u16_le, u32_le,
        LOCAL_FILE_SIGNATURE]
      omega
    have hcb30 : (30 : Nat) ≤ b.length := by omega
    have hcbN : 30 + name.length ≤ b.length := by omega
    have hcbE : 30 + name.length + extra.length + 4 + 4 + 4 ≤ b.length := by omega
    have hdd : has_data_descriptor flags = true := by
      simpa [has_data_descriptor] using hflag
    have hne : dcrc ≠ 134695760 := hnosig rfl
    exact read_file_eq (by rw [hoff]; exact expect_signature_at h0)
      (read_metadata_desc_nosig hdd hne (read_u16_at h4 hvn)
        (read_u16_at h6 hflags) (read_u16_at h8 hmethod) (read_u32_at h10 hdt)
        (read_u32_at h14 hcrc) (read_u32_at h18 hcs) (read_u32_at h22 hus)
        (read_u16_at h26 hname) (read_u16_at h28 hextra)
        (get_byte_range_at name h30 hcb30) (get_byte_range_at extra hName hcbN)
        (read_u32_at hExtra hdcrc) (read_u32_at hD1 hdcs)
        (read_u32_at hD2 hdus))
      (get_byte_range_at contents hD3 hcbE)
  | true =>
    set b : List Nat := local_file_bytes vn flags method dt crc cs us name extra ++
        data_descriptor_bytes true dcrc contents.length dus ++ contents ++ trailing with hb
    have h0 : b.drop 0 = 80 :: 75 :: 3 :: 4 :: (u16_le vn ++ (u16_le flags ++ (u16_le method ++ (u32_le dt ++ (u32_le crc ++ (u32_le cs ++ (u32_le us ++ (u16_le name.length ++ (u16_le extra.length ++ (name ++ (extra ++ (80 :: 75 :: 7 :: 8 :: (u32_le dcrc ++ (u32_le contents.length ++ (u32_le dus ++ (contents ++ trailing)))))))))))))))) := by
      simp only [hb, local_file_bytes, data_descriptor_bytes_true, LOCAL_FILE_SIGNATURE,
        List.append_assoc, List.cons_append, List.nil_append, List.drop_zero]
    have h4 : b.drop 4 = u16_le vn ++ (u16_le flags ++ (u16_le method ++ (u32_le dt ++ (u32_le crc ++ (u32_le cs ++ (u32_le us ++ (u16_le name.length ++ (u16_le extra.length ++ (name ++ (extra ++ (80 :: 75 :: 7 :: 8 :: (u32_le dcrc ++ (u32_le contents.length ++ (u32_le dus ++ (contents ++ trailing))))))))))))))) :=
      drop_cons_step (drop_cons_step (drop_cons_step (drop_cons_step h0)))
    have h6 : b.drop (6) = u16_le flags ++ (u16_le method ++ (u32_le dt ++ (u32_le crc ++ (u32_le cs ++ (u32_le us ++ (u16_le name.length ++ (u16_le extra.length ++ (name ++ (extra ++ (80 :: 75 :: 7 :: 8 :: (u32_le dcrc ++ (u32_le contents.length ++ (u32_le dus ++ (contents ++ trailing)))))))))))))) := by
      have hh := drop_chunk_step (u16_le vn) h4
      simpa only [u16_le_length, Nat.reduceAdd] using hh
    have h8 : b.drop (8) = u16_le method ++ (u32_le dt ++ (u32_le crc ++ (u32_le cs ++ (u32_le us ++ (u16_le name.length ++ (u16_le extra.length ++ (name ++ (extra ++ (80 :: 75 :: 7 :: 8 :: (u32_le dcrc ++ (u32_le contents.length ++ (u32_le dus ++ (contents ++ trailing))))))))))))) := by
      have hh := drop_chunk_step (u16_le flags) h6
      simpa only [u16_le_length, Nat.reduceAdd] using hh
    have h10 : b.drop (10) = u32_le dt ++ (u32_le crc ++ (u32_le cs ++ (u32_le us ++ (u16_le name.length ++ (u16_le extra.length ++ (name ++ (extra ++ (80 :: 75 :: 7 :: 8 :: (u32_le dcrc ++ (u32_le contents.length ++ (u32_le dus ++ (contents ++ trailing)))))))))))) := by
      have hh := drop_chunk_step (u16_le method) h8
      simpa only [u16_le_length, Nat.reduceAdd] using hh
    have h14 : b.drop (14) = u32_le crc ++ (u32_le cs ++ (u32_le us ++ (u16_le name.length ++ (u16_le extra.length ++ (name ++ (extra ++ (80 :: 75 :: 7 :: 8 :: (u32_le dcrc ++ (u32_le contents.length ++ (u32_le dus ++ (contents ++ trailing))))))))))) := by
      have hh := drop_chunk_step (u32_le dt) h10
      simpa only [u32_le_length, Nat.reduceAdd] using hh
    have h18 : b.drop (18) = u32_le cs ++ (u32_le us ++ (u16_le name.length ++ (u16_le extra.length ++ (name ++ (extra ++ (80 :: 75 :: 7 :: 8 :: (u32_le dcrc ++ (u32_le contents.length ++ (u32_le dus ++ (contents ++ trailing)))))))))) := by
      have hh := drop_chunk_step (u32_le crc) h14
      simpa only [u32_le_length, Nat.reduceAdd] using hh
    have h22 : b.drop (22) = u32_le us ++ (u16_le name.length ++ (u16_le extra.length ++ (name ++ (extra ++ (80 :: 75 :: 7 :: 8 :: (u32_le dcrc ++ (u32_le contents.length ++ (u32_le dus ++ (contents ++ trailing))))))))) := by
      have hh := drop_chunk_step (u32_le cs) h18
      simpa only [u32_le_length, Nat.reduceAdd] using hh
    have h26 : b.drop (26) = u16_le name.length ++ (u16_le extra.length ++ (name ++ (extra ++ (80 :: 75 :: 7 :: 8 :: (u32_le dcrc ++ (u32_le contents.length ++ (u32_le dus ++ (contents ++ trailing)))))))) := by
      have hh := drop_chunk_step (u32_le us) h22
      simpa only [u32_le_length, Nat.reduceAdd] using hh
    have h28 : b.drop (28) = u16_le extra.length ++ (name ++ (extra ++ (80 :: 75 :: 7 :: 8 :: (u32_le dcrc ++ (u32_le contents.length ++ (u32_le dus ++ (contents ++ trailing))))))) := by
      have hh := drop_chunk_step (u16_le name.length) h26
      simpa only [u16_le_length, Nat.reduceAdd] using hh
    have h30 : b.drop (30) = name ++ (extra ++ (80 :: 75 :: 7 :: 8 :: (u32_le dcrc ++ (u32_le contents.length ++ (u32_le dus ++ (contents ++ trailing)))))) := by
      have hh := drop_chunk_step (u16_le extra.length) h28
      simpa only [u16_le_length, Nat.reduceAdd] using hh
    have hName : b.drop (30 + name.length) = extra ++ (80 :: 75 :: 7 :: 8 :: (u32_le dcrc ++ (u32_le contents.length ++ (u32_le dus ++ (contents ++ trailing))))) :=
      drop_chunk_step name h30
    have hExtra : b.drop (30 + name.length + extra.length) = 80 :: 75 :: 7 :: 8 :: (u32_le dcrc ++ (u32_le contents.length ++ (u32_le dus ++ (contents ++ trailing)))) :=
      drop_chunk_step extra hName
    have hSigForm : b.drop (30 + name.length + extra.length) = u32_le 134695760 ++ (u32_le dcrc ++ (u32_le contents.length ++ (u32_le dus ++ (contents ++ trailing)))) := hExtra
    have hD1 : b.drop (30 + name.length + extra.length + 4) = u32_le dcrc ++ (u32_le contents.length ++ (u32_le dus ++ (contents ++ trailing))) := by
      have hh := drop_chunk_step (u32_le 134695760) hSigForm
      simpa only [u32_le_length] using hh
    have hD2 : b.drop (30 + name.length + extra.length + 4 + 4) = u32_le contents.length ++ (u32_le dus ++ (contents ++ trailing)) := by
      have hh := drop_chunk_step (u32_le dcrc) hD1
      simpa only [u32_le_length] using hh
    have hD3 : b.drop (30 + name.length + extra.length + 4 + 4 + 4) = u32_le dus ++ (contents ++ trailing) := by
      have hh := drop_chunk_step (u32_le contents.length) hD2
      simpa only [u32_le_length] using hh
    have hD4 : b.drop (30 + name.length + extra.length + 4 + 4 + 4 + 4) = contents ++ trailing := by
      have hh := drop_chunk_step (u32_le dus) hD3
      simpa only [u32_le_length] using hh
    have hblen : b.length = 46 + name.length + extra.length + contents.length + trailing.length := by
      simp [hb, local_file_bytes, data_descriptor_bytes_true, u16_le, u32_le,
        LOCAL_FILE_SIGNATURE]
      omega
    have hcb30 : (30 : Nat) ≤ b.length := by omega
    have hcbN : 30 + name.length ≤ b.length := by omega
    have hcbE : 30 + name.length + extra.length + 4 + 4 + 4 + 4 ≤ b.length := by omega
    have hdd : has_data_descriptor flags = true := by
      simpa [has_data_descriptor] using hflag
    exact read_file_eq (by rw [hoff]; exact expect_signature_at h0)
      (read_metadata_desc_sig hdd (read_u16_at h4 hvn)
        (read_u16_at h6 hflags) (read_u16_at h8 hmethod) (read_u32_at h10 hdt)
        (read_u32_at h14 hcrc) (read_u32_at h18 hcs) (read_u32_at h22 hus)
        (read_u16_at h26 hname) (read_u16_at h28 hextra)
        (get_byte_range_at name h30 hcb30) (get_byte_range_at extra hName hcbN)
        (read_u32_at hSigForm (by norm_num)) (read_u32_at hD1 hdcrc)
        (read_u32_at hD2 hdcs) (read_u32_at hD3 hdus))
      (get_byte_range_at contents hD4 hcbE)

/-- C2 (witness): the amended statement evaluated on the concrete
zero-filled header of `c2_buffer`: name and extra empty, declared crc and
sizes zero, a signature-prefixed descriptor carrying crc `0x12345678` and
sizes 2, followed by the two content bytes. -/
theorem c2_amended_witness :
    read_file (local_file_bytes 0 8 0 0 0 0 0 [] [] ++
        data_descriptor_bytes true 305419896 2 2 ++ [170, 187] ++ []) zero_header =
      .ok { metadata := { version_needed := 0, compression_method := 0,
                          date_time_modified := 0, flags := 8, name := [],
                          extra_field := [], compressed_size := 2,
                          uncompressed_size := 2, crc := 305419896 },
            contents := [170, 187] } :=
  c2_amended 0 8 0 0 0 0 0 305419896 2 2 [] [] [170, 187] [] true zero_header rfl
    (by decide) (by decide) (by decide) (by decide) (by decide) (by decide) (by decide)
    (by decide) (by decide) (by decide) (by decide) (by decide) (by decide) rfl
    (fun h => absurd h (by decide))
